import Mathlib

/-!
The script generator handler of cloud-architect.

A shallow embedding of `src/main.go`: the `TemplateData` record, the handler
`GenerateScript`, the route that dispatches to it, and the parts of the Go standard library whose behaviour the
handler's observable result depends on (`path/filepath.Join`, the header map,
`http.ResponseWriter` and `http.Error`).

The world outside the handler (file system, clock, JSON decoder, template
engine) is an explicit `Env` argument.

Go strings are byte strings; they are embedded as Lean strings.  The only
bytes the embedded library code inspects (`/` and `.`) are ASCII, so reading a
string character by character agrees with reading it byte by byte.
-/

namespace CloudArchitect

/-! ## `path/filepath` (Unix: separator `/`, no volume names) -/

/-- The separator test `os.IsPathSeparator` on Unix. -/
def isPathSeparator (c : Char) : Bool := c == '/'

/-- The inner loop of the `..` case of `filepath.Clean`, after the initial
`out.w--`: while `out.w > dotdot` and `out[out.w]` is not a separator, step
`out.w` back.  Returns the final `out.w`. -/
def backtrack (out : List Char) (dotdot : Nat) : Nat → Nat
  | 0 => 0
  | w + 1 =>
    if w + 1 > dotdot && !isPathSeparator (out.getD (w + 1) '/') then
      backtrack out dotdot w
    else w + 1

/-- The main loop of `filepath.Clean`.  The first argument is `path[r:]`, `out`
is the buffer written so far (`out.w = out.length`), `dotdot` is the index where
`..` must stop.  `inElem = true` is the inner `for` of the default case, which
copies one path element up to the next separator or the end of the path;
`inElem = false` is the head of the outer `for r < n`. -/
def cleanLoop (rooted : Bool) : List Char → List Char → Nat → Bool → List Char
  | [], out, _, _ => out
  | c :: rest, out, dotdot, true =>
    if isPathSeparator c then
      -- the copy loop stops; the outer loop then skips the separator (r++)
      cleanLoop rooted rest out dotdot false
    else
      cleanLoop rooted rest (out ++ [c]) dotdot true
  | '.' :: '.' :: rest, out, dotdot, false =>
    if rest.isEmpty || isPathSeparator (rest.headD '/') then
      -- .. element: remove to last separator
      if out.length > dotdot then
        cleanLoop rooted rest (out.take (backtrack out dotdot (out.length - 1))) dotdot false
      else if !rooted then
        let out1 := if out.length > 0 then out ++ ['/'] else out
        let out2 := out1 ++ ['.', '.']
        cleanLoop rooted rest out2 out2.length false
      else
        cleanLoop rooted rest out dotdot false
    else
      -- real path element starting with two dots
      let out1 := if (rooted && out.length != 1) || (!rooted && out.length != 0)
        then out ++ ['/'] else out
      cleanLoop rooted rest (out1 ++ ['.', '.']) dotdot true
  | c :: rest, out, dotdot, false =>
    if isPathSeparator c then
      -- empty path element
      cleanLoop rooted rest out dotdot false
    else if c == '.' && (rest.isEmpty || isPathSeparator (rest.headD '/')) then
      -- . element
      cleanLoop rooted rest out dotdot false
    else
      -- real path element: add slash if needed, then copy the element
      let out1 := if (rooted && out.length != 1) || (!rooted && out.length != 0)
        then out ++ ['/'] else out
      cleanLoop rooted rest (out1 ++ [c]) dotdot true

/-- The function `filepath.Clean` on a list of characters. -/
def cleanChars (path : List Char) : List Char :=
  match path with
  | [] => ['.']
  | c :: rest =>
    let rooted := isPathSeparator c
    let out :=
      if rooted then cleanLoop true rest ['/'] 1 false
      else cleanLoop false (c :: rest) [] 0 false
    -- Turn empty string into "."
    if out.length == 0 then ['.'] else out

/-- The function `filepath.Clean`. -/
def Clean (path : String) : String := String.mk (cleanChars path.data)

/-- The function `filepath.Join`: the first non-empty element and everything
after it are joined with the separator and cleaned; empty leading elements are
skipped. -/
def Join : List String → String
  | [] => ""
  | e :: rest =>
    if e ≠ "" then Clean (String.intercalate "/" (e :: rest)) else Join rest

/-! ## The data model (`src/main.go`, lines 15-29) -/

/-- The record `TemplateData`: the data injected into the script template. -/
structure TemplateData where
  ProjectName : String
  CreatedAt : String
  UserName : String
  ContainerName : String
  Network : String
  DNS : String
  PUID : String
  PGID : String
  TZ : String
  Port : String
  Volume : String
  HostIP : String
  deriving DecidableEq, Repr

/-! ## The world outside the handler -/

/-- What the handler can tell about the result of `os.Stat`: no error, an error
for which `os.IsNotExist` holds, or any other error. -/
inductive StatResult where
  | ok
  | notExist
  | otherErr
  deriving DecidableEq, Repr

/-- A parsed template, as returned by `template.ParseFiles`. -/
structure Template where
  text : String
  deriving DecidableEq, Repr

/-- The collaborators of the handler.  `decode body` is
`json.NewDecoder(r.Body).Decode(&input)` on a zero `input`: the value of
`input` afterwards and the returned error.  `execute tmpl data` is
`tmpl.Execute(w, data)`: the successive `w.Write` calls it makes and the
returned error. -/
structure Env where
  stat : String → StatResult
  timeNow : Nat
  timeFormat : Nat → String → String
  decode : String → TemplateData × Option String
  parseFiles : String → Except String Template
  execute : Template → TemplateData → List String × Option String

/-- The layout constant `time.RFC1123`. -/
def RFC1123 : String := "Mon, 02 Jan 2006 15:04:05 MST"

/-- The request: method, route variables (`mux.Vars`), header map keyed by
canonical header name, and body. -/
structure Request where
  method : String
  vars : List (String × String)
  header : List (String × List String)
  body : String
  deriving DecidableEq, Repr

/-- The map read `mux.Vars(r)[key]`: the zero value `""` for a missing key. -/
def muxVar (r : Request) (key : String) : String :=
  (r.vars.lookup key).getD ""

/-- The function `Header.Get`: the first value stored under the key, `""` when
there is none.  The key `Content-Type` is already in canonical form. -/
def headerGet (h : List (String × List String)) (key : String) : String :=
  match h.lookup key with
  | some (v :: _) => v
  | _ => ""

/-! ## `net/http`: the response writer -/

/-- The state of an `http.ResponseWriter`: the handler's header map, whether
the status line has been committed, the committed status and header snapshot,
and the body written so far. -/
structure ResponseWriter where
  header : List (String × String)
  wroteHeader : Bool
  status : Nat
  sentHeader : List (String × String)
  body : String
  deriving DecidableEq, Repr

/-- The writer the server hands to the handler. -/
def newResponseWriter : ResponseWriter :=
  { header := [], wroteHeader := false, status := 0, sentHeader := [], body := "" }

/-- The call `w.Header().Set(key, value)`. -/
def ResponseWriter.headerSet (w : ResponseWriter) (key value : String) : ResponseWriter :=
  { w with header := (key, value) :: w.header.filter (fun kv => kv.1 != key) }

/-- The call `w.WriteHeader(code)`: the first call commits the status and the
header map; a later call is superfluous and changes nothing. -/
def ResponseWriter.WriteHeader (w : ResponseWriter) (code : Nat) : ResponseWriter :=
  if w.wroteHeader then w
  else { w with wroteHeader := true, status := code, sentHeader := w.header }

/-- The call `w.Write(b)`: commits status 200 when no status has been
committed yet, then appends to the body. -/
def ResponseWriter.Write (w : ResponseWriter) (b : String) : ResponseWriter :=
  let w1 := if w.wroteHeader then w else w.WriteHeader 200
  { w1 with body := w1.body ++ b }

/-- The function `http.Error(w, error, code)`: sets the plain-text headers,
calls `WriteHeader(code)` and prints the message followed by a newline.  (The
headers that newer library versions delete here, such as `Content-Length`, are
never set by this handler.) -/
def httpError (w : ResponseWriter) (error : String) (code : Nat) : ResponseWriter :=
  let w1 := w.headerSet "Content-Type" "text/plain; charset=utf-8"
  let w2 := w1.headerSet "X-Content-Type-Options" "nosniff"
  let w3 := w2.WriteHeader code
  w3.Write (error ++ "\n")

/-- What the server does when the handler returns: a handler that never wrote
gets an implicit `WriteHeader(200)`. -/
def finishRequest (w : ResponseWriter) : ResponseWriter :=
  if w.wroteHeader then w else w.WriteHeader 200

/-! ## The handler (`src/main.go`, lines 31-110) -/

/-- The calls the handler makes on its collaborators, in order. -/
inductive Event where
  | stat (path : String)
  | decodeBody (body : String)
  | parseFiles (path : String)
  | execute (tmpl : Template) (data : TemplateData)
  deriving DecidableEq, Repr

/-- The result of one handler run: the response writer and the calls made. -/
structure Outcome where
  w : ResponseWriter
  trace : List Event
  deriving DecidableEq, Repr

/-- Line 37: the template file path. -/
def templateFile (osType : String) : String :=
  Join ["templates", "jelly-bash-" ++ osType ++ ".sh"]

/-- Lines 44-57: the default values. -/
def defaults (env : Env) : TemplateData :=
  { ProjectName := "Nexus Creator Vault"
    CreatedAt := env.timeFormat env.timeNow RFC1123
    UserName := "Administrator"
    ContainerName := "nexus-creator-vault"
    Network := "Inner-Athena"
    DNS := "10.20.0.20"
    PUID := "1050"
    PGID := "1050"
    TZ := "America/Colorado"
    Port := "1050"
    Volume := "creator-vault000"
    HostIP := "10.20.0.1" }

/-- Lines 63-95: the field-wise override of `data` by the decoded `input`. -/
def override (data input : TemplateData) : TemplateData :=
  let d1 := if input.ProjectName ≠ "" then { data with ProjectName := input.ProjectName } else data
  let d2 := if input.UserName ≠ "" then { d1 with UserName := input.UserName } else d1
  let d3 := if input.ContainerName ≠ "" then { d2 with ContainerName := input.ContainerName } else d2
  let d4 := if input.Network ≠ "" then { d3 with Network := input.Network } else d3
  let d5 := if input.DNS ≠ "" then { d4 with DNS := input.DNS } else d4
  let d6 := if input.PUID ≠ "" then { d5 with PUID := input.PUID } else d5
  let d7 := if input.PGID ≠ "" then { d6 with PGID := input.PGID } else d6
  let d8 := if input.TZ ≠ "" then { d7 with TZ := input.TZ } else d7
  let d9 := if input.Port ≠ "" then { d8 with Port := input.Port } else d8
  let d10 := if input.Volume ≠ "" then { d9 with Volume := input.Volume } else d9
  if input.HostIP ≠ "" then { d10 with HostIP := input.HostIP } else d10

/-- Lines 43-97: the record after the defaults and the optional JSON override,
with the decoder call made on the way (if any). -/
def requestData (env : Env) (r : Request) : TemplateData × List Event :=
  let data := defaults env
  if headerGet r.header "Content-Type" = "application/json" then
    match env.decode r.body with
    | (input, none) => (override data input, [Event.decodeBody r.body])
    | (_, some _) => (data, [Event.decodeBody r.body])
  else (data, [])

/-- The handler `GenerateScript`. -/
def GenerateScript (env : Env) (w : ResponseWriter) (r : Request) : Outcome :=
  let osType := muxVar r "osType"
  let path := templateFile osType
  match env.stat path with
  | StatResult.notExist =>
    { w := httpError w "Template for OS type not found" 404, trace := [Event.stat path] }
  | _ =>
    let (data, decoded) := requestData env r
    match env.parseFiles path with
    | Except.error err =>
      { w := httpError w ("Error parsing template: " ++ err) 500,
        trace := [Event.stat path] ++ decoded ++ [Event.parseFiles path] }
    | Except.ok tmpl =>
      let w1 := w.headerSet "Content-Type" "text/plain"
      let (writes, execErr) := env.execute tmpl data
      let w2 := writes.foldl ResponseWriter.Write w1
      let tr := [Event.stat path] ++ decoded ++ [Event.parseFiles path, Event.execute tmpl data]
      match execErr with
      | some err => { w := httpError w2 ("Error executing template: " ++ err) 500, trace := tr }
      | none => { w := w2, trace := tr }

/-- One request served from start to end: a fresh writer, the handler, and the
server's implicit status. -/
def serve (env : Env) (r : Request) : Outcome :=
  let o := GenerateScript env newResponseWriter r
  { o with w := finishRequest o.w }

/-- The record handed to `tmpl.Execute` in a run, if the run got that far. -/
def handed : List Event → Option TemplateData
  | [] => none
  | Event.execute _ data :: _ => some data
  | _ :: rest => handed rest

/-- Whether the run handed the request body to the JSON decoder. -/
def readsBody : List Event → Bool
  | [] => false
  | Event.decodeBody _ :: _ => true
  | _ :: rest => readsBody rest

/-- Whether the run called `template.ParseFiles`. -/
def parsesTemplate : List Event → Bool
  | [] => false
  | Event.parseFiles _ :: _ => true
  | _ :: rest => parsesTemplate rest

/-- The `Content-Type` of the committed response header. -/
def sentContentType (w : ResponseWriter) : Option String :=
  w.sentHeader.lookup "Content-Type"

/-! ## The router (`src/main.go`, line 117) -/

/-- The route `/scripts/{osType}` for the methods `GET` and `POST`: the
variables bound for a request path, or `none` when the route does not match.
A route variable without a pattern of its own matches `[^/]+`, one or more
characters other than `/`.  (The router also redirects a path that is not
clean instead of dispatching it; that removes requests and adds none.) -/
def route (method urlPath : String) : Option (List (String × String)) :=
  if (method = "GET" ∨ method = "POST") ∧ urlPath.data.take 9 = "/scripts/".data
      ∧ urlPath.data.drop 9 ≠ [] ∧ '/' ∉ urlPath.data.drop 9 then
    some [("osType", String.mk (urlPath.data.drop 9))]
  else none

/-! ## Sample world and requests -/

/-- The zero value of `TemplateData`, the state of `input` before decoding. -/
def zeroData : TemplateData := ⟨"", "", "", "", "", "", "", "", "", "", "", ""⟩

/-- A body overriding two fields. -/
def aliceBody : String := "\x7b\"UserName\":\"Alice\",\"Port\":\"9000\"\x7d"

/-- What the decoder stores for `aliceBody`. -/
def aliceInput : TemplateData := { zeroData with UserName := "Alice", Port := "9000" }

/-- A body overriding all eleven fields. -/
def fullBody : String :=
  "\x7b\"ProjectName\":\"P\",\"UserName\":\"U\",\"ContainerName\":\"C\",\"Network\":\"N\","
    ++ "\"DNS\":\"D\",\"PUID\":\"1\",\"PGID\":\"2\",\"TZ\":\"Z\",\"Port\":\"3\","
    ++ "\"Volume\":\"V\",\"HostIP\":\"H\"\x7d"

/-- What the decoder stores for `fullBody`. -/
def fullInput : TemplateData := ⟨"P", "", "U", "C", "N", "D", "1", "2", "Z", "3", "V", "H"⟩

/-- A body that carries a `CreatedAt` key. -/
def stampBody : String := "\x7b\"CreatedAt\":\"yesterday\",\"TZ\":\"UTC\"\x7d"

/-- What the decoder stores for `stampBody`. -/
def stampInput : TemplateData := { zeroData with CreatedAt := "yesterday", TZ := "UTC" }

/-- A body whose `Port` is a number: the decoder stores `UserName` and then
reports a type error. -/
def brokenBody : String := "\x7b\"UserName\":\"Bob\",\"Port\":9000\x7d"

/-- A decoder stand-in for the samples, defined on the four sample bodies;
every other body is treated as empty (`EOF`). -/
def sampleDecode (body : String) : TemplateData × Option String :=
  if body = aliceBody then (aliceInput, none)
  else if body = fullBody then (fullInput, none)
  else if body = stampBody then (stampInput, none)
  else if body = brokenBody then
    ({ zeroData with UserName := "Bob" },
      some "json: cannot unmarshal number into Go struct field TemplateData.Port of type string")
  else (zeroData, some "EOF")

/-- A template engine stand-in for the samples: the template text `"ok"`
renders the user name and the port, `"halfway"` writes a first chunk and then
fails, anything else fails before writing. -/
def sampleExecute (tmpl : Template) (data : TemplateData) : List String × Option String :=
  if tmpl.text = "ok" then (["user=" ++ data.UserName, " port=" ++ data.Port], none)
  else if tmpl.text = "halfway" then (["#!/bin/bash\n"], some "can't evaluate field Nope")
  else ([], some "can't evaluate field Nope")

/-- A sample world: templates for `linux` (renders), `osx` (fails after a
first write), `bsd` (fails before writing) and `windows` (does not parse). -/
def sampleEnv : Env :=
  { stat := fun p =>
      if p = "templates/jelly-bash-linux.sh" ∨ p = "templates/jelly-bash-osx.sh"
        ∨ p = "templates/jelly-bash-bsd.sh" ∨ p = "templates/jelly-bash-windows.sh"
      then StatResult.ok else StatResult.notExist
    timeNow := 0
    timeFormat := fun _ _ => "Thu, 01 Jan 1970 00:00:00 UTC"
    decode := sampleDecode
    parseFiles := fun p =>
      if p = "templates/jelly-bash-linux.sh" then Except.ok ⟨"ok"⟩
      else if p = "templates/jelly-bash-osx.sh" then Except.ok ⟨"halfway"⟩
      else if p = "templates/jelly-bash-bsd.sh" then Except.ok ⟨"fail"⟩
      else Except.error "unexpected EOF"
    execute := sampleExecute }

/-- A sample request for the given OS type, content type and body. -/
def sampleRequest (osType contentType body : String) : Request :=
  { method := "POST", vars := [("osType", osType)],
    header := [("Content-Type", [contentType])], body := body }

/-- A sample request without a `Content-Type` header and without a body. -/
def plainRequest (osType : String) : Request :=
  { method := "GET", vars := [("osType", osType)], header := [], body := "" }

/-- The defaults of the sample world. -/
def sampleDefaults : TemplateData :=
  ⟨"Nexus Creator Vault", "Thu, 01 Jan 1970 00:00:00 UTC", "Administrator",
    "nexus-creator-vault", "Inner-Athena", "10.20.0.20", "1050", "1050", "America/Colorado",
    "1050", "creator-vault000", "10.20.0.1"⟩

/-- The record the sample world hands to the template for `aliceBody`. -/
def aliceRecord : TemplateData := { sampleDefaults with UserName := "Alice", Port := "9000" }

/-- The record the sample world hands to the template for `fullBody`. -/
def fullRecord : TemplateData :=
  { fullInput with CreatedAt := "Thu, 01 Jan 1970 00:00:00 UTC" }

/-- The record the sample world hands to the template for `stampBody`. -/
def stampRecord : TemplateData := { sampleDefaults with TZ := "UTC" }

/-- An OS type of 300 characters, as in `GET /scripts/aaa...a`. -/
def longOsType : String := String.mk (List.replicate 300 'a')

/-- The length of the last element of a path. -/
def baseNameLength (path : String) : Nat :=
  (path.data.reverse.takeWhile (fun c => c != '/')).length

/-- The sample world on a file system with the usual limit of 255 bytes for a
file name: for a longer name `os.Stat` fails with `ENAMETOOLONG`, an error for
which `os.IsNotExist` does not hold, and `template.ParseFiles` cannot open the
file.  No file of such a name exists. -/
def longNameEnv : Env :=
  { sampleEnv with
    stat := fun p => if 255 < baseNameLength p then StatResult.otherErr else sampleEnv.stat p
    parseFiles := fun p =>
      if 255 < baseNameLength p then Except.error "open: file name too long"
      else sampleEnv.parseFiles p }

/-- A body that is not valid JSON as a whole: a complete JSON object followed
by two stray closing braces. -/
def eveBody : String := "\x7b\"UserName\":\"Eve\"\x7d\x7d\x7d"

/-- What the decoder stores for `eveBody`: `Decode` reads the first JSON value
of the stream and stops there. -/
def eveInput : TemplateData := { zeroData with UserName := "Eve" }

/-- The sample world with the decoder's answer on `eveBody`: the first value
is decoded without error and the rest of the body is never looked at. -/
def streamEnv : Env :=
  { sampleEnv with
    decode := fun body => if body = eveBody then (eveInput, none) else sampleEnv.decode body }

/-! ## Lemmas on `filepath.Clean` -/

/-- The embedding of `filepath.Clean` on the table of the standard library's
own test (`cleantests` in `path_test.go`). -/
theorem Clean_standard_table :
    Clean "abc" = "abc" ∧ Clean "abc/def" = "abc/def" ∧ Clean "a/b/c" = "a/b/c"
      ∧ Clean "." = "." ∧ Clean ".." = ".." ∧ Clean "../.." = "../.."
      ∧ Clean "../../abc" = "../../abc" ∧ Clean "/abc" = "/abc" ∧ Clean "/" = "/"
      ∧ Clean "" = "."
      ∧ Clean "abc/" = "abc" ∧ Clean "abc/def/" = "abc/def" ∧ Clean "a/b/c/" = "a/b/c"
      ∧ Clean "./" = "." ∧ Clean "../" = ".." ∧ Clean "../../" = "../.."
      ∧ Clean "/abc/" = "/abc"
      ∧ Clean "abc//def//ghi" = "abc/def/ghi" ∧ Clean "abc//" = "abc"
      ∧ Clean "abc/./def" = "abc/def" ∧ Clean "/./abc/def" = "/abc/def"
      ∧ Clean "abc/." = "abc"
      ∧ Clean "abc/def/ghi/../jkl" = "abc/def/jkl"
      ∧ Clean "abc/def/../ghi/../jkl" = "abc/jkl"
      ∧ Clean "abc/def/.." = "abc" ∧ Clean "abc/def/../.." = "."
      ∧ Clean "/abc/def/../.." = "/" ∧ Clean "abc/def/../../.." = ".."
      ∧ Clean "/abc/def/../../.." = "/"
      ∧ Clean "abc/def/../../../ghi/jkl/../../../mno" = "../../mno"
      ∧ Clean "/../abc" = "/abc" ∧ Clean "a/../b:/../../c" = "../c"
      ∧ Clean "abc/./../def" = "def" ∧ Clean "abc//./../def" = "def"
      ∧ Clean "abc/../../././../def" = "../../def" := by
  decide

/-- The embedding of `filepath.Join` on the table of the standard library's
own test (`jointests` in `path_test.go`). -/
theorem Join_standard_table :
    Join [] = "" ∧ Join [""] = "" ∧ Join ["a"] = "a" ∧ Join ["a", "b"] = "a/b"
      ∧ Join ["a", ""] = "a" ∧ Join ["", "b"] = "b" ∧ Join ["/", "a"] = "/a"
      ∧ Join ["/", "a/b"] = "/a/b" ∧ Join ["/", ""] = "/" ∧ Join ["/a", "b"] = "/a/b"
      ∧ Join ["a", "/b"] = "a/b" ∧ Join ["/a", "/b"] = "/a/b" ∧ Join ["a/", "b"] = "a/b"
      ∧ Join ["a/", ""] = "a" ∧ Join ["", ""] = "" ∧ Join ["/", "a", "b"] = "/a/b" := by
  decide

/-- Inside an element, characters that are not separators are copied
unchanged to the end of the path. -/
theorem cleanLoop_copy (rooted : Bool) (l : List Char) (h : '/' ∉ l) (out : List Char)
    (dotdot : Nat) : cleanLoop rooted l out dotdot true = out ++ l := by
  induction l generalizing out with
  | nil => simp [cleanLoop]
  | cons c rest ih =>
    have hc : c ≠ '/' := fun e => h (by simp [e])
    have hrest : '/' ∉ rest := fun e => h (by simp [e])
    simp [cleanLoop, isPathSeparator, hc, ih hrest]

/-- The characters of the template path before cleaning. -/
theorem templatePath_data (osType : String) :
    (String.intercalate "/" ["templates", "jelly-bash-" ++ osType ++ ".sh"]).data
      = "templates/jelly-bash-".data ++ (osType.data ++ ".sh".data) := by
  simp [String.intercalate, String.intercalate.go, String.data_append]

/-- Cleaning the joined template path changes nothing when the OS type holds
no separator. -/
theorem cleanChars_templatePath (x : List Char) (h : '/' ∉ x) :
    cleanChars ("templates/jelly-bash-".data ++ (x ++ ".sh".data))
      = "templates/jelly-bash-".data ++ (x ++ ".sh".data) := by
  have hx : '/' ∉ x ++ ".sh".data := by
    intro e
    rcases List.mem_append.mp e with e | e
    · exact h e
    · revert e; decide
  have hd : "templates/jelly-bash-".data
      = ['t','e','m','p','l','a','t','e','s','/','j','e','l','l','y','-','b','a','s','h','-'] := rfl
  rw [hd]
  have hs : ".sh".data = ['.', 's', 'h'] := rfl
  rw [hs] at hx ⊢
  simp [cleanChars, cleanLoop, isPathSeparator, cleanLoop_copy false _ hx]

/-- The template path of an OS type without a separator is the plain
concatenation. -/
theorem templateFile_of_no_separator (osType : String) (h : '/' ∉ osType.data) :
    templateFile osType = "templates/" ++ "jelly-bash-" ++ osType ++ ".sh" := by
  have hne : ("templates" : String) ≠ "" := by decide
  apply String.ext
  simp only [templateFile, Join, hne, ne_eq, not_false_eq_true, if_true, Clean,
    templatePath_data, cleanChars_templatePath osType.data h, String.data_append]
  simp

/-! ## Lemmas on the override merge -/

/-- The merge on `ProjectName`: a non-empty input value wins. -/
theorem override_ProjectName (data input : TemplateData) :
    (override data input).ProjectName = if input.ProjectName ≠ "" then input.ProjectName else data.ProjectName := by
  simp only [override, apply_ite TemplateData.ProjectName, ite_self]

/-- The merge never touches `CreatedAt`. -/
theorem override_CreatedAt (data input : TemplateData) :
    (override data input).CreatedAt = data.CreatedAt := by
  simp only [override, apply_ite TemplateData.CreatedAt, ite_self]

/-- The merge on `UserName`: a non-empty input value wins. -/
theorem override_UserName (data input : TemplateData) :
    (override data input).UserName = if input.UserName ≠ "" then input.UserName else data.UserName := by
  simp only [override, apply_ite TemplateData.UserName, ite_self]

/-- The merge on `ContainerName`: a non-empty input value wins. -/
theorem override_ContainerName (data input : TemplateData) :
    (override data input).ContainerName = if input.ContainerName ≠ "" then input.ContainerName else data.ContainerName := by
  simp only [override, apply_ite TemplateData.ContainerName, ite_self]

/-- The merge on `Network`: a non-empty input value wins. -/
theorem override_Network (data input : TemplateData) :
    (override data input).Network = if input.Network ≠ "" then input.Network else data.Network := by
  simp only [override, apply_ite TemplateData.Network, ite_self]

/-- The merge on `DNS`: a non-empty input value wins. -/
theorem override_DNS (data input : TemplateData) :
    (override data input).DNS = if input.DNS ≠ "" then input.DNS else data.DNS := by
  simp only [override, apply_ite TemplateData.DNS, ite_self]

/-- The merge on `PUID`: a non-empty input value wins. -/
theorem override_PUID (data input : TemplateData) :
    (override data input).PUID = if input.PUID ≠ "" then input.PUID else data.PUID := by
  simp only [override, apply_ite TemplateData.PUID, ite_self]

/-- The merge on `PGID`: a non-empty input value wins. -/
theorem override_PGID (data input : TemplateData) :
    (override data input).PGID = if input.PGID ≠ "" then input.PGID else data.PGID := by
  simp only [override, apply_ite TemplateData.PGID, ite_self]

/-- The merge on `TZ`: a non-empty input value wins. -/
theorem override_TZ (data input : TemplateData) :
    (override data input).TZ = if input.TZ ≠ "" then input.TZ else data.TZ := by
  simp only [override, apply_ite TemplateData.TZ, ite_self]

/-- The merge on `Port`: a non-empty input value wins. -/
theorem override_Port (data input : TemplateData) :
    (override data input).Port = if input.Port ≠ "" then input.Port else data.Port := by
  simp only [override, apply_ite TemplateData.Port, ite_self]

/-- The merge on `Volume`: a non-empty input value wins. -/
theorem override_Volume (data input : TemplateData) :
    (override data input).Volume = if input.Volume ≠ "" then input.Volume else data.Volume := by
  simp only [override, apply_ite TemplateData.Volume, ite_self]

/-- The merge on `HostIP`: a non-empty input value wins. -/
theorem override_HostIP (data input : TemplateData) :
    (override data input).HostIP = if input.HostIP ≠ "" then input.HostIP else data.HostIP := by
  simp only [override, apply_ite TemplateData.HostIP, ite_self]

/-! ## Lemmas on the request data -/

/-- Without the exact JSON content type the body is not decoded and the
defaults stand. -/
theorem requestData_not_json (env : Env) (r : Request)
    (h : headerGet r.header "Content-Type" ≠ "application/json") :
    requestData env r = (defaults env, []) := by
  simp [requestData, h]

/-- A decoder error leaves the defaults, whatever the decoder stored. -/
theorem requestData_decode_error (env : Env) (r : Request)
    (hct : headerGet r.header "Content-Type" = "application/json")
    (herr : (env.decode r.body).2 ≠ none) :
    requestData env r = (defaults env, [Event.decodeBody r.body]) := by
  unfold requestData
  rw [if_pos hct]
  rcases hd : env.decode r.body with ⟨input, _ | e⟩
  · rw [hd] at herr; exact absurd rfl herr
  · rfl

/-- A successful decode merges the decoded input over the defaults. -/
theorem requestData_decoded (env : Env) (r : Request) (input : TemplateData)
    (hct : headerGet r.header "Content-Type" = "application/json")
    (hdec : env.decode r.body = (input, none)) :
    requestData env r = (override (defaults env) input, [Event.decodeBody r.body]) := by
  unfold requestData
  rw [if_pos hct, hdec]

/-- The request data step makes no call or exactly one decoder call. -/
theorem requestData_calls (env : Env) (r : Request) :
    (requestData env r).2 = [] ∨ (requestData env r).2 = [Event.decodeBody r.body] := by
  unfold requestData
  split
  · rcases env.decode r.body with ⟨input, _ | e⟩ <;> simp
  · simp


/-! ## Lemmas on the response writer -/

/-- Once the status is committed, further writes leave status and header
snapshot alone and only extend the body. -/
theorem foldl_Write_committed (writes : List String) (w : ResponseWriter)
    (h : w.wroteHeader = true) :
    (writes.foldl ResponseWriter.Write w).wroteHeader = true
      ∧ (writes.foldl ResponseWriter.Write w).status = w.status
      ∧ (writes.foldl ResponseWriter.Write w).sentHeader = w.sentHeader
      ∧ (writes.foldl ResponseWriter.Write w).body = writes.foldl (· ++ ·) w.body := by
  induction writes generalizing w with
  | nil => simp [h]
  | cons b rest ih =>
    have hb : (w.Write b).wroteHeader = true := by simp [ResponseWriter.Write, h]
    have := ih (w.Write b) hb
    simp only [List.foldl_cons]
    refine ⟨this.1, ?_, ?_, ?_⟩
    · rw [this.2.1]; simp [ResponseWriter.Write, h]
    · rw [this.2.2.1]; simp [ResponseWriter.Write, h]
    · rw [this.2.2.2]; simp [ResponseWriter.Write, h]

/-- The first write on an uncommitted writer commits status 200 with the
header map as it stands. -/
theorem Write_uncommitted (w : ResponseWriter) (b : String) (h : w.wroteHeader = false) :
    (w.Write b).wroteHeader = true ∧ (w.Write b).status = 200
      ∧ (w.Write b).sentHeader = w.header ∧ (w.Write b).body = w.body ++ b := by
  simp [ResponseWriter.Write, ResponseWriter.WriteHeader, h]

/-- Writes on an uncommitted writer followed by the end of the request: the
status is 200, the committed header is the header map, the body is the writes
in order. -/
theorem finish_foldl_Write (writes : List String) (w : ResponseWriter)
    (h : w.wroteHeader = false) :
    (finishRequest (writes.foldl ResponseWriter.Write w)).status = 200
      ∧ (finishRequest (writes.foldl ResponseWriter.Write w)).sentHeader = w.header
      ∧ (finishRequest (writes.foldl ResponseWriter.Write w)).body
          = writes.foldl (· ++ ·) w.body := by
  cases writes with
  | nil => simp [finishRequest, ResponseWriter.WriteHeader, h]
  | cons b rest =>
    have hb := Write_uncommitted w b h
    have hf := foldl_Write_committed rest (w.Write b) hb.1
    simp only [List.foldl_cons, finishRequest, hf.1, if_true]
    exact ⟨hf.2.1.trans hb.2.1, hf.2.2.1.trans hb.2.2.1, by rw [hf.2.2.2, hb.2.2.2]⟩

/-- The function `http.Error` on an uncommitted writer: the given status, the
plain-text content type, and the message line appended to the body. -/
theorem httpError_uncommitted (w : ResponseWriter) (msg : String) (code : Nat)
    (h : w.wroteHeader = false) :
    (httpError w msg code).wroteHeader = true ∧ (httpError w msg code).status = code
      ∧ sentContentType (httpError w msg code) = some "text/plain; charset=utf-8"
      ∧ (httpError w msg code).body = w.body ++ (msg ++ "\n") := by
  simp [httpError, ResponseWriter.Write, ResponseWriter.WriteHeader, ResponseWriter.headerSet,
    sentContentType, h, List.lookup]

/-- The function `http.Error` on a committed writer: status and committed
header stay, only the message line is appended to the body. -/
theorem httpError_committed (w : ResponseWriter) (msg : String) (code : Nat)
    (h : w.wroteHeader = true) :
    (httpError w msg code).wroteHeader = true ∧ (httpError w msg code).status = w.status
      ∧ (httpError w msg code).sentHeader = w.sentHeader
      ∧ (httpError w msg code).body = w.body ++ (msg ++ "\n") := by
  simp [httpError, ResponseWriter.Write, ResponseWriter.WriteHeader, ResponseWriter.headerSet, h]

/-! ## Lemmas on the handler -/

/-- The run when `os.Stat` reports that the template file does not exist. -/
theorem GenerateScript_notExist (env : Env) (w : ResponseWriter) (r : Request)
    (h : env.stat (templateFile (muxVar r "osType")) = StatResult.notExist) :
    GenerateScript env w r =
      { w := httpError w "Template for OS type not found" 404,
        trace := [Event.stat (templateFile (muxVar r "osType"))] } := by
  simp [GenerateScript, h]

/-- The run when the template file is there but does not parse. -/
theorem GenerateScript_parse_error (env : Env) (w : ResponseWriter) (r : Request) (e : String)
    (h : env.stat (templateFile (muxVar r "osType")) ≠ StatResult.notExist)
    (hp : env.parseFiles (templateFile (muxVar r "osType")) = Except.error e) :
    GenerateScript env w r =
      { w := httpError w ("Error parsing template: " ++ e) 500,
        trace := [Event.stat (templateFile (muxVar r "osType"))] ++ (requestData env r).2
          ++ [Event.parseFiles (templateFile (muxVar r "osType"))] } := by
  unfold GenerateScript
  cases hs : env.stat (templateFile (muxVar r "osType")) with
  | notExist => exact absurd hs h
  | ok => simp [hp]
  | otherErr => simp [hp]

/-- The run when the template file is there and parses: the record built from
the request is executed, its writes go to the response, and an execution error
is reported through `http.Error` afterwards. -/
theorem GenerateScript_executed (env : Env) (w : ResponseWriter) (r : Request) (tmpl : Template)
    (h : env.stat (templateFile (muxVar r "osType")) ≠ StatResult.notExist)
    (hp : env.parseFiles (templateFile (muxVar r "osType")) = Except.ok tmpl) :
    GenerateScript env w r =
      { w :=
          match (env.execute tmpl (requestData env r).1).2 with
          | some err =>
            httpError
              ((env.execute tmpl (requestData env r).1).1.foldl ResponseWriter.Write
                (w.headerSet "Content-Type" "text/plain"))
              ("Error executing template: " ++ err) 500
          | none =>
            (env.execute tmpl (requestData env r).1).1.foldl ResponseWriter.Write
              (w.headerSet "Content-Type" "text/plain"),
        trace := [Event.stat (templateFile (muxVar r "osType"))] ++ (requestData env r).2
          ++ [Event.parseFiles (templateFile (muxVar r "osType")),
              Event.execute tmpl (requestData env r).1] } := by
  unfold GenerateScript
  cases hs : env.stat (templateFile (muxVar r "osType")) with
  | notExist => exact absurd hs h
  | ok =>
    simp only [hp]
    rcases hx : env.execute tmpl (requestData env r).1 with ⟨writes, _ | err⟩ <;> simp [hx]
  | otherErr =>
    simp only [hp]
    rcases hx : env.execute tmpl (requestData env r).1 with ⟨writes, _ | err⟩ <;> simp [hx]

/-- The trace of a run holds an `execute` call only with the record built from
the request. -/
theorem handed_GenerateScript (env : Env) (w : ResponseWriter) (r : Request) (d : TemplateData)
    (hd : handed (GenerateScript env w r).trace = some d) : d = (requestData env r).1 := by
  by_cases hs : env.stat (templateFile (muxVar r "osType")) = StatResult.notExist
  · rw [GenerateScript_notExist env w r hs] at hd
    simp [handed] at hd
  · cases hp : env.parseFiles (templateFile (muxVar r "osType")) with
    | error e =>
      rw [GenerateScript_parse_error env w r e hs hp] at hd
      rcases requestData_calls env r with hc | hc <;> simp [hc, handed] at hd
    | ok tmpl =>
      rw [GenerateScript_executed env w r tmpl hs hp] at hd
      rcases requestData_calls env r with hc | hc <;> simp [hc, handed] at hd <;> exact hd.symm

/-- A run that reaches the template hands it the record built from the
request. -/
theorem handed_of_parsed (env : Env) (w : ResponseWriter) (r : Request) (tmpl : Template)
    (h : env.stat (templateFile (muxVar r "osType")) ≠ StatResult.notExist)
    (hp : env.parseFiles (templateFile (muxVar r "osType")) = Except.ok tmpl) :
    handed (GenerateScript env w r).trace = some (requestData env r).1 := by
  rw [GenerateScript_executed env w r tmpl h hp]
  rcases requestData_calls env r with hc | hc <;> simp [hc, handed]


/-- The record of a served request, when one is handed to the template, is the
record built from the request. -/
theorem handed_serve (env : Env) (r : Request) (d : TemplateData)
    (hd : handed (serve env r).trace = some d) : d = (requestData env r).1 :=
  handed_GenerateScript env newResponseWriter r d hd

/-- An execution error on a served request: the status is 500 only when the
template wrote nothing before failing, and stays at the committed 200
otherwise; the error line ends the body in both cases. -/
theorem serve_execute_error (env : Env) (r : Request) (tmpl : Template) (err : String)
    (h : env.stat (templateFile (muxVar r "osType")) ≠ StatResult.notExist)
    (hp : env.parseFiles (templateFile (muxVar r "osType")) = Except.ok tmpl)
    (hx : (env.execute tmpl (requestData env r).1).2 = some err) :
    (serve env r).w.status
        = (if (env.execute tmpl (requestData env r).1).1 = [] then 500 else 200)
      ∧ (serve env r).w.body
        = (env.execute tmpl (requestData env r).1).1.foldl (· ++ ·) ""
            ++ ("Error executing template: " ++ err ++ "\n") := by
  unfold serve
  rw [GenerateScript_executed env newResponseWriter r tmpl h hp]
  simp only [hx]
  cases hw : (env.execute tmpl (requestData env r).1).1 with
  | nil =>
    have he := httpError_uncommitted (newResponseWriter.headerSet "Content-Type" "text/plain")
      ("Error executing template: " ++ err) 500 rfl
    simp only [List.foldl_nil, finishRequest, he.1, if_true]
    exact ⟨he.2.1, by rw [he.2.2.2]; rfl⟩
  | cons b rest =>
    have hb := Write_uncommitted (newResponseWriter.headerSet "Content-Type" "text/plain") b rfl
    have hf := foldl_Write_committed rest _ hb.1
    have he := httpError_committed _ ("Error executing template: " ++ err) 500 hf.1
    simp only [List.foldl_cons, finishRequest, he.1, if_true]
    refine ⟨?_, ?_⟩
    · rw [he.2.1, hf.2.1, hb.2.1]; simp
    · rw [he.2.2.2, hf.2.2.2, hb.2.2.2]; rfl

/-- A served request whose template executes without error: status 200, plain
text, and the body is what the template wrote. -/
theorem serve_executed_ok (env : Env) (r : Request) (tmpl : Template)
    (h : env.stat (templateFile (muxVar r "osType")) ≠ StatResult.notExist)
    (hp : env.parseFiles (templateFile (muxVar r "osType")) = Except.ok tmpl)
    (hx : (env.execute tmpl (requestData env r).1).2 = none) :
    (serve env r).w.status = 200
      ∧ sentContentType (serve env r).w = some "text/plain"
      ∧ (serve env r).w.body = (env.execute tmpl (requestData env r).1).1.foldl (· ++ ·) ""
      ∧ handed (serve env r).trace = some (requestData env r).1 := by
  have hh := handed_of_parsed env newResponseWriter r tmpl h hp
  unfold serve
  refine ⟨?_, ?_, ?_, hh⟩
  all_goals rw [GenerateScript_executed env newResponseWriter r tmpl h hp]
  all_goals simp only [hx]
  · exact (finish_foldl_Write _ (newResponseWriter.headerSet "Content-Type" "text/plain") rfl).1
  · unfold sentContentType
    rw [(finish_foldl_Write _ (newResponseWriter.headerSet "Content-Type" "text/plain") rfl).2.1]
    rfl
  · exact (finish_foldl_Write _ (newResponseWriter.headerSet "Content-Type" "text/plain") rfl).2.2

/-! ## The claims -/

/-- C1: for a request with content type exactly `application/json` whose body
decodes without error into `input`, the record handed to the template takes
every non-empty field of `input` among the eleven overridable fields, whatever
the other fields of `input` are. -/
theorem C1_nonempty_override_replaces_default (env : Env) (r : Request)
    (input d : TemplateData)
    (hct : headerGet r.header "Content-Type" = "application/json")
    (hdec : env.decode r.body = (input, none))
    (hd : handed (serve env r).trace = some d) :
    (input.ProjectName ≠ "" → d.ProjectName = input.ProjectName)
      ∧ (input.UserName ≠ "" → d.UserName = input.UserName)
      ∧ (input.ContainerName ≠ "" → d.ContainerName = input.ContainerName)
      ∧ (input.Network ≠ "" → d.Network = input.Network)
      ∧ (input.DNS ≠ "" → d.DNS = input.DNS)
      ∧ (input.PUID ≠ "" → d.PUID = input.PUID)
      ∧ (input.PGID ≠ "" → d.PGID = input.PGID)
      ∧ (input.TZ ≠ "" → d.TZ = input.TZ)
      ∧ (input.Port ≠ "" → d.Port = input.Port)
      ∧ (input.Volume ≠ "" → d.Volume = input.Volume)
      ∧ (input.HostIP ≠ "" → d.HostIP = input.HostIP) := by
  have e := handed_serve env r d hd
  rw [requestData_decoded env r input hct hdec] at e
  subst e
  refine ⟨?_, ?_, ?_, ?_, ?_, ?_, ?_, ?_, ?_, ?_, ?_⟩ <;> intro hne
  · rw [override_ProjectName, if_pos hne]
  · rw [override_UserName, if_pos hne]
  · rw [override_ContainerName, if_pos hne]
  · rw [override_Network, if_pos hne]
  · rw [override_DNS, if_pos hne]
  · rw [override_PUID, if_pos hne]
  · rw [override_PGID, if_pos hne]
  · rw [override_TZ, if_pos hne]
  · rw [override_Port, if_pos hne]
  · rw [override_Volume, if_pos hne]
  · rw [override_HostIP, if_pos hne]

/-- C1 at a body that overrides all eleven fields at once: the hypotheses hold
and the handed record carries the eleven override values. -/
theorem C1_nonempty_override_replaces_default_witness :
    headerGet (sampleRequest "linux" "application/json" fullBody).header "Content-Type"
        = "application/json"
      ∧ sampleEnv.decode (sampleRequest "linux" "application/json" fullBody).body
        = (fullInput, none)
      ∧ handed (serve sampleEnv (sampleRequest "linux" "application/json" fullBody)).trace
        = some fullRecord
      ∧ fullRecord.ProjectName = "P" ∧ fullRecord.UserName = "U"
      ∧ fullRecord.ContainerName = "C" ∧ fullRecord.Network = "N" ∧ fullRecord.DNS = "D"
      ∧ fullRecord.PUID = "1" ∧ fullRecord.PGID = "2" ∧ fullRecord.TZ = "Z"
      ∧ fullRecord.Port = "3" ∧ fullRecord.Volume = "V" ∧ fullRecord.HostIP = "H" :=
  have h := C1_nonempty_override_replaces_default sampleEnv
    (sampleRequest "linux" "application/json" fullBody) fullInput fullRecord
    (by decide) (by decide) (by decide)
  ⟨by decide, by decide, by decide,
    h.1 (by decide), h.2.1 (by decide), h.2.2.1 (by decide), h.2.2.2.1 (by decide),
    h.2.2.2.2.1 (by decide), h.2.2.2.2.2.1 (by decide), h.2.2.2.2.2.2.1 (by decide),
    h.2.2.2.2.2.2.2.1 (by decide), h.2.2.2.2.2.2.2.2.1 (by decide),
    h.2.2.2.2.2.2.2.2.2.1 (by decide), h.2.2.2.2.2.2.2.2.2.2 (by decide)⟩

/-- C2: for a request with content type exactly `application/json` whose body
decodes without error into `input`, every overridable field that is empty in
`input` keeps its default in the record handed to the template. -/
theorem C2_empty_override_keeps_default (env : Env) (r : Request) (input d : TemplateData)
    (hct : headerGet r.header "Content-Type" = "application/json")
    (hdec : env.decode r.body = (input, none))
    (hd : handed (serve env r).trace = some d) :
    (input.ProjectName = "" → d.ProjectName = "Nexus Creator Vault")
      ∧ (input.UserName = "" → d.UserName = "Administrator")
      ∧ (input.ContainerName = "" → d.ContainerName = "nexus-creator-vault")
      ∧ (input.Network = "" → d.Network = "Inner-Athena")
      ∧ (input.DNS = "" → d.DNS = "10.20.0.20")
      ∧ (input.PUID = "" → d.PUID = "1050")
      ∧ (input.PGID = "" → d.PGID = "1050")
      ∧ (input.TZ = "" → d.TZ = "America/Colorado")
      ∧ (input.Port = "" → d.Port = "1050")
      ∧ (input.Volume = "" → d.Volume = "creator-vault000")
      ∧ (input.HostIP = "" → d.HostIP = "10.20.0.1") := by
  have e := handed_serve env r d hd
  rw [requestData_decoded env r input hct hdec] at e
  subst e
  refine ⟨?_, ?_, ?_, ?_, ?_, ?_, ?_, ?_, ?_, ?_, ?_⟩ <;> intro hem
  · rw [override_ProjectName, if_neg (not_not.mpr hem)]; rfl
  · rw [override_UserName, if_neg (not_not.mpr hem)]; rfl
  · rw [override_ContainerName, if_neg (not_not.mpr hem)]; rfl
  · rw [override_Network, if_neg (not_not.mpr hem)]; rfl
  · rw [override_DNS, if_neg (not_not.mpr hem)]; rfl
  · rw [override_PUID, if_neg (not_not.mpr hem)]; rfl
  · rw [override_PGID, if_neg (not_not.mpr hem)]; rfl
  · rw [override_TZ, if_neg (not_not.mpr hem)]; rfl
  · rw [override_Port, if_neg (not_not.mpr hem)]; rfl
  · rw [override_Volume, if_neg (not_not.mpr hem)]; rfl
  · rw [override_HostIP, if_neg (not_not.mpr hem)]; rfl

/-- C2 at the body that overrides `UserName` and `Port` only: the handed
record has these two values and the other nine fields at their defaults. -/
theorem C2_empty_override_keeps_default_witness :
    headerGet (sampleRequest "linux" "application/json" aliceBody).header "Content-Type"
        = "application/json"
      ∧ sampleEnv.decode (sampleRequest "linux" "application/json" aliceBody).body
        = (aliceInput, none)
      ∧ handed (serve sampleEnv (sampleRequest "linux" "application/json" aliceBody)).trace
        = some aliceRecord
      ∧ aliceRecord.UserName = "Alice" ∧ aliceRecord.Port = "9000"
      ∧ aliceRecord.ProjectName = "Nexus Creator Vault"
      ∧ aliceRecord.ContainerName = "nexus-creator-vault"
      ∧ aliceRecord.Network = "Inner-Athena" ∧ aliceRecord.DNS = "10.20.0.20"
      ∧ aliceRecord.PUID = "1050" ∧ aliceRecord.PGID = "1050"
      ∧ aliceRecord.TZ = "America/Colorado" ∧ aliceRecord.Volume = "creator-vault000"
      ∧ aliceRecord.HostIP = "10.20.0.1" :=
  have h := C2_empty_override_keeps_default sampleEnv
    (sampleRequest "linux" "application/json" aliceBody) aliceInput aliceRecord
    (by decide) (by decide) (by decide)
  ⟨by decide, by decide, by decide, by decide, by decide,
    h.1 (by decide), h.2.2.1 (by decide), h.2.2.2.1 (by decide),
    h.2.2.2.2.1 (by decide), h.2.2.2.2.2.1 (by decide), h.2.2.2.2.2.2.1 (by decide),
    h.2.2.2.2.2.2.2.1 (by decide), h.2.2.2.2.2.2.2.2.2.1 (by decide),
    h.2.2.2.2.2.2.2.2.2.2 (by decide)⟩


/-- A run in which `os.Stat` does not report a missing file goes on to
`template.ParseFiles`, whatever else `os.Stat` returned. -/
theorem parsesTemplate_of_stat_not_notExist (env : Env) (r : Request)
    (h : env.stat (templateFile (muxVar r "osType")) ≠ StatResult.notExist) :
    parsesTemplate (serve env r).trace = true := by
  cases hp : env.parseFiles (templateFile (muxVar r "osType")) with
  | error e =>
    rcases requestData_calls env r with hc | hc <;>
      simp [serve, GenerateScript_parse_error env newResponseWriter r e h hp, hc, parsesTemplate]
  | ok tmpl =>
    rcases requestData_calls env r with hc | hc <;>
      simp [serve, GenerateScript_executed env newResponseWriter r tmpl h hp, hc, parsesTemplate]

/-- The paths in the trace of a run: the first call is `os.Stat` on the
template path, and `template.ParseFiles` is only ever called on that path. -/
theorem serve_trace_paths (env : Env) (r : Request) :
    (serve env r).trace.head? = some (Event.stat (templateFile (muxVar r "osType")))
      ∧ (∀ p, Event.parseFiles p ∈ (serve env r).trace →
          p = templateFile (muxVar r "osType")) := by
  refine ⟨?_, ?_⟩
  · by_cases hs : env.stat (templateFile (muxVar r "osType")) = StatResult.notExist
    · simp [serve, GenerateScript_notExist env newResponseWriter r hs]
    · cases hp : env.parseFiles (templateFile (muxVar r "osType")) with
      | error e => simp [serve, GenerateScript_parse_error env newResponseWriter r e hs hp]
      | ok tmpl => simp [serve, GenerateScript_executed env newResponseWriter r tmpl hs hp]
  · intro p hmem
    by_cases hs : env.stat (templateFile (muxVar r "osType")) = StatResult.notExist
    · simp [serve, GenerateScript_notExist env newResponseWriter r hs] at hmem
    · cases hp : env.parseFiles (templateFile (muxVar r "osType")) with
      | error e =>
        rcases requestData_calls env r with hc | hc <;>
          simpa [serve, GenerateScript_parse_error env newResponseWriter r e hs hp, hc]
            using hmem
      | ok tmpl =>
        rcases requestData_calls env r with hc | hc <;>
          simpa [serve, GenerateScript_executed env newResponseWriter r tmpl hs hp, hc]
            using hmem

/-- Every request the route `/scripts/{osType}` dispatches binds an `osType`
without a separator. -/
theorem route_binds_no_separator (method urlPath : String) (r : Request)
    (h : route method urlPath = some r.vars) : '/' ∉ (muxVar r "osType").data := by
  unfold route at h
  split at h
  · rename_i hc
    have hv : r.vars = [("osType", String.mk (urlPath.data.drop 9))] :=
      (Option.some.inj h).symm
    simp only [muxVar, hv, List.lookup, beq_self_eq_true, Option.getD_some]
    exact hc.2.2.2
  · exact absurd h (by simp)

/-- Outside the route: an `osType` with separators, which the route never
binds, is not kept verbatim, because `filepath.Join` cleans the joined path. -/
theorem templateFile_with_separators :
    route "GET" "/scripts/a//b" = none
      ∧ templateFile "a//b" = "templates/jelly-bash-a/b.sh"
      ∧ templateFile "a//b" ≠ "templates/" ++ "jelly-bash-" ++ "a//b" ++ ".sh" := by
  decide

/-- C3, as stated, fails: `GET /scripts/aaa...a` with an `osType` of 300
characters is dispatched by the route; no template file of that name exists,
but `os.Stat` fails with `ENAMETOOLONG`, for which `os.IsNotExist` does not
hold, so the handler goes on, reads a JSON body, calls `template.ParseFiles`
and answers 500, not 404. -/
theorem C3_name_too_long_is_500 :
    route "GET" ("/scripts/" ++ longOsType) = some (plainRequest longOsType).vars
      ∧ longNameEnv.stat (templateFile (muxVar (plainRequest longOsType) "osType"))
        = StatResult.otherErr
      ∧ (serve longNameEnv (plainRequest longOsType)).w.status = 500
      ∧ (serve longNameEnv (plainRequest longOsType)).w.status ≠ 404
      ∧ (serve longNameEnv (plainRequest longOsType)).w.body
        = "Error parsing template: open: file name too long\n"
      ∧ parsesTemplate (serve longNameEnv (plainRequest longOsType)).trace = true
      ∧ readsBody
          (serve longNameEnv (sampleRequest longOsType "application/json" aliceBody)).trace
        = true := by
  set_option maxRecDepth 100000 in decide

/-- C3, amended: when `os.Stat` on the template path fails with an error for
which `os.IsNotExist` holds, then for every method, header set and body the
response is 404 with the non-empty plain-text message, and the only call made
is the `os.Stat` itself: the body is not read and no template is parsed. -/
theorem C3_missing_template_is_404 (env : Env) (r : Request)
    (h : env.stat (templateFile (muxVar r "osType")) = StatResult.notExist) :
    (serve env r).w.status = 404
      ∧ (serve env r).w.body = "Template for OS type not found\n"
      ∧ (serve env r).w.body ≠ ""
      ∧ sentContentType (serve env r).w = some "text/plain; charset=utf-8"
      ∧ (serve env r).trace = [Event.stat (templateFile (muxVar r "osType"))]
      ∧ readsBody (serve env r).trace = false
      ∧ parsesTemplate (serve env r).trace = false
      ∧ handed (serve env r).trace = none := by
  have he := httpError_uncommitted newResponseWriter "Template for OS type not found" 404 rfl
  have hb : (serve env r).w.body = "Template for OS type not found\n" := by
    simp only [serve, GenerateScript_notExist env newResponseWriter r h, finishRequest, he.1,
      if_true, he.2.2.2]
    rfl
  refine ⟨?_, hb, ?_, ?_, ?_, ?_, ?_, ?_⟩
  · simp only [serve, GenerateScript_notExist env newResponseWriter r h, finishRequest, he.1,
      if_true, he.2.1]
  · rw [hb]; decide
  · simp only [serve, GenerateScript_notExist env newResponseWriter r h, finishRequest, he.1,
      if_true, he.2.2.1]
  · simp only [serve, GenerateScript_notExist env newResponseWriter r h]
  · simp only [serve, GenerateScript_notExist env newResponseWriter r h, readsBody]
  · simp only [serve, GenerateScript_notExist env newResponseWriter r h, parsesTemplate]
  · simp only [serve, GenerateScript_notExist env newResponseWriter r h, handed]

/-- C3 amended, at `GET /scripts/plan9` in the sample world, which has no such
template. -/
theorem C3_missing_template_is_404_witness :
    sampleEnv.stat (templateFile (muxVar (plainRequest "plan9") "osType")) = StatResult.notExist
      ∧ (serve sampleEnv (plainRequest "plan9")).w.status = 404
      ∧ (serve sampleEnv (plainRequest "plan9")).w.body = "Template for OS type not found\n"
      ∧ (serve sampleEnv (plainRequest "plan9")).w.body ≠ ""
      ∧ sentContentType (serve sampleEnv (plainRequest "plan9")).w
        = some "text/plain; charset=utf-8"
      ∧ (serve sampleEnv (plainRequest "plan9")).trace
        = [Event.stat (templateFile (muxVar (plainRequest "plan9") "osType"))]
      ∧ readsBody (serve sampleEnv (plainRequest "plan9")).trace = false
      ∧ parsesTemplate (serve sampleEnv (plainRequest "plan9")).trace = false
      ∧ handed (serve sampleEnv (plainRequest "plan9")).trace = none :=
  ⟨by decide, C3_missing_template_is_404 sampleEnv (plainRequest "plan9") (by decide)⟩

/-- C4: for every `osType` without a separator, which is every `osType` the
route `/scripts/{osType}` binds, the template path that `GenerateScript` stats
and parses is exactly the concatenation
`"templates/" ++ "jelly-bash-" ++ osType ++ ".sh"`, with `osType` verbatim. -/
theorem C4_template_path_is_concatenation (env : Env) (r : Request)
    (h : '/' ∉ (muxVar r "osType").data) :
    templateFile (muxVar r "osType")
        = "templates/" ++ "jelly-bash-" ++ muxVar r "osType" ++ ".sh"
      ∧ (serve env r).trace.head?
        = some (Event.stat ("templates/" ++ "jelly-bash-" ++ muxVar r "osType" ++ ".sh"))
      ∧ (∀ p, Event.parseFiles p ∈ (serve env r).trace →
          p = "templates/" ++ "jelly-bash-" ++ muxVar r "osType" ++ ".sh") := by
  have hpath := templateFile_of_no_separator (muxVar r "osType") h
  have htrace := serve_trace_paths env r
  rw [hpath] at htrace
  exact ⟨hpath, htrace.1, htrace.2⟩

/-- C4 at two requests the route dispatches: `GET /scripts/linux`, whose
template is then parsed, and `GET /scripts/..linux..`, whose dots are kept as
they are. -/
theorem C4_template_path_is_concatenation_witness :
    (route "GET" "/scripts/linux" = some (plainRequest "linux").vars
        ∧ '/' ∉ (muxVar (plainRequest "linux") "osType").data
        ∧ templateFile "linux" = "templates/jelly-bash-linux.sh"
        ∧ (serve sampleEnv (plainRequest "linux")).trace.head?
          = some (Event.stat "templates/jelly-bash-linux.sh")
        ∧ Event.parseFiles "templates/jelly-bash-linux.sh"
          ∈ (serve sampleEnv (plainRequest "linux")).trace)
      ∧ (route "GET" "/scripts/..linux.." = some (plainRequest "..linux..").vars
        ∧ '/' ∉ (muxVar (plainRequest "..linux..") "osType").data
        ∧ templateFile "..linux.." = "templates/jelly-bash-..linux...sh"
        ∧ (serve sampleEnv (plainRequest "..linux..")).trace.head?
          = some (Event.stat "templates/jelly-bash-..linux...sh")) :=
  ⟨⟨by decide, by decide,
      (C4_template_path_is_concatenation sampleEnv (plainRequest "linux") (by decide)).1,
      (C4_template_path_is_concatenation sampleEnv (plainRequest "linux") (by decide)).2.1,
      by decide⟩,
    ⟨by decide, by decide,
      (C4_template_path_is_concatenation sampleEnv (plainRequest "..linux..") (by decide)).1,
      (C4_template_path_is_concatenation sampleEnv (plainRequest "..linux..")
        (by decide)).2.1⟩⟩

/-- C5, as stated, fails: the body `eveBody` is a complete JSON object followed
by two stray closing braces, so it is not valid JSON; `Decode` reads the first
value of the stream, returns no error and has stored `UserName = "Eve"`, and
the record handed to the template has `UserName = "Eve"`, not the default. -/
theorem C5_invalid_body_is_merged :
    eveBody = "\x7b\"UserName\":\"Eve\"\x7d" ++ "\x7d\x7d"
      ∧ headerGet (sampleRequest "linux" "application/json" eveBody).header "Content-Type"
        = "application/json"
      ∧ streamEnv.decode (sampleRequest "linux" "application/json" eveBody).body
        = (eveInput, none)
      ∧ handed (serve streamEnv (sampleRequest "linux" "application/json" eveBody)).trace
        = some { defaults streamEnv with UserName := "Eve" }
      ∧ handed (serve streamEnv (sampleRequest "linux" "application/json" eveBody)).trace
        ≠ some (defaults streamEnv)
      ∧ (serve streamEnv (sampleRequest "linux" "application/json" eveBody)).w.status = 200
      ∧ (serve streamEnv (sampleRequest "linux" "application/json" eveBody)).w.body
        = "user=Eve port=1050" := by
  decide

/-- C5, amended: for a request with content type exactly `application/json`
whose body makes the decoder return an error (whatever the decoder stored in
`input` before failing), the record handed to the template is the default
record, and the failure is not reported: when the template file exists, parses
and executes, the status is 200 and the body is the template output alone. -/
theorem C5_decode_error_is_swallowed (env : Env) (r : Request)
    (hct : headerGet r.header "Content-Type" = "application/json")
    (herr : (env.decode r.body).2 ≠ none) :
    (∀ d, handed (serve env r).trace = some d → d = defaults env)
      ∧ (∀ tmpl, env.stat (templateFile (muxVar r "osType")) = StatResult.ok →
          env.parseFiles (templateFile (muxVar r "osType")) = Except.ok tmpl →
          (env.execute tmpl (defaults env)).2 = none →
          (serve env r).w.status = 200
            ∧ (serve env r).w.body = (env.execute tmpl (defaults env)).1.foldl (· ++ ·) ""
            ∧ handed (serve env r).trace = some (defaults env)) := by
  have hdata : (requestData env r).1 = defaults env := by
    rw [requestData_decode_error env r hct herr]
  refine ⟨?_, ?_⟩
  · intro d hd
    rw [handed_serve env r d hd, hdata]
  · intro tmpl hs hp hx
    have hs1 : env.stat (templateFile (muxVar r "osType")) ≠ StatResult.notExist := by
      rw [hs]; decide
    rw [← hdata] at hx ⊢
    have hok := serve_executed_ok env r tmpl hs1 hp hx
    exact ⟨hok.1, hok.2.2.1, hok.2.2.2⟩

/-- C5 amended, at the sample body whose `Port` is a number: the decoder has
stored `UserName = "Bob"` and reports an error; the handed record is the
default record and the status is 200. -/
theorem C5_decode_error_is_swallowed_witness :
    headerGet (sampleRequest "linux" "application/json" brokenBody).header "Content-Type"
        = "application/json"
      ∧ (sampleEnv.decode (sampleRequest "linux" "application/json" brokenBody).body).1.UserName
        = "Bob"
      ∧ (sampleEnv.decode (sampleRequest "linux" "application/json" brokenBody).body).2 ≠ none
      ∧ (serve sampleEnv (sampleRequest "linux" "application/json" brokenBody)).w.status = 200
      ∧ (serve sampleEnv (sampleRequest "linux" "application/json" brokenBody)).w.body
        = "user=Administrator port=1050"
      ∧ handed (serve sampleEnv (sampleRequest "linux" "application/json" brokenBody)).trace
        = some sampleDefaults :=
  ⟨by decide, by decide, by decide,
    (C5_decode_error_is_swallowed sampleEnv (sampleRequest "linux" "application/json" brokenBody)
      (by decide) (by decide)).2 ⟨"ok"⟩ (by decide) rfl (by decide)⟩

/-- C6: for a request whose `Content-Type` value is anything but exactly
`application/json`, the body is not consulted (no decoder call is made and the
outcome is the same for every body) and the record handed to the template is
the default record. -/
theorem C6_other_content_type_skips_body (env : Env) (r : Request)
    (h : headerGet r.header "Content-Type" ≠ "application/json") :
    readsBody (serve env r).trace = false
      ∧ (∀ d, handed (serve env r).trace = some d → d = defaults env)
      ∧ (∀ body, serve env { r with body := body } = serve env r) := by
  have hdata : requestData env r = (defaults env, []) := requestData_not_json env r h
  refine ⟨?_, ?_, ?_⟩
  · by_cases hs : env.stat (templateFile (muxVar r "osType")) = StatResult.notExist
    · simp [serve, GenerateScript_notExist env newResponseWriter r hs, readsBody]
    · cases hp : env.parseFiles (templateFile (muxVar r "osType")) with
      | error e =>
        simp [serve, GenerateScript_parse_error env newResponseWriter r e hs hp, hdata,
          readsBody]
      | ok tmpl =>
        simp [serve, GenerateScript_executed env newResponseWriter r tmpl hs hp, hdata,
          readsBody]
  · intro d hd
    rw [handed_serve env r d hd, hdata]
  · intro body
    have hdata2 : requestData env { r with body := body } = (defaults env, []) :=
      requestData_not_json env { r with body := body } h
    simp only [serve, GenerateScript, muxVar, hdata, hdata2]

/-- C6 at three requests of the sample world: `application/json` followed by a
charset parameter, the media type in another letter case, and no `Content-Type`
header at all; each carries a body that would override `UserName` and
`Port`. -/
theorem C6_other_content_type_skips_body_witness :
    (headerGet (sampleRequest "linux" "application/json; charset=utf-8" aliceBody).header
          "Content-Type" ≠ "application/json"
        ∧ readsBody
            (serve sampleEnv
              (sampleRequest "linux" "application/json; charset=utf-8" aliceBody)).trace = false
        ∧ handed
            (serve sampleEnv
              (sampleRequest "linux" "application/json; charset=utf-8" aliceBody)).trace
          = some sampleDefaults)
      ∧ (headerGet (sampleRequest "linux" "Application/JSON" aliceBody).header "Content-Type"
          ≠ "application/json"
        ∧ readsBody (serve sampleEnv (sampleRequest "linux" "Application/JSON" aliceBody)).trace
          = false)
      ∧ (headerGet ({ plainRequest "linux" with body := aliceBody }).header "Content-Type"
          ≠ "application/json"
        ∧ readsBody (serve sampleEnv { plainRequest "linux" with body := aliceBody }).trace
          = false) :=
  ⟨⟨by decide,
      (C6_other_content_type_skips_body sampleEnv
        (sampleRequest "linux" "application/json; charset=utf-8" aliceBody) (by decide)).1,
      by decide⟩,
    ⟨by decide,
      (C6_other_content_type_skips_body sampleEnv
        (sampleRequest "linux" "Application/JSON" aliceBody) (by decide)).1⟩,
    ⟨by decide,
      (C6_other_content_type_skips_body sampleEnv
        { plainRequest "linux" with body := aliceBody } (by decide)).1⟩⟩

/-- C7: the `CreatedAt` of the record handed to the template is the clock
value formatted with the RFC 1123 layout, whatever the request holds; two
requests handled at the same clock value get the same `CreatedAt`, whatever
their headers, bodies and decoded inputs are. -/
theorem C7_created_at_is_server_clock (env1 env2 : Env) (r1 r2 : Request)
    (d1 d2 : TemplateData)
    (hclock : env1.timeNow = env2.timeNow) (hfmt : env1.timeFormat = env2.timeFormat)
    (h1 : handed (serve env1 r1).trace = some d1)
    (h2 : handed (serve env2 r2).trace = some d2) :
    d1.CreatedAt = env1.timeFormat env1.timeNow RFC1123 ∧ d1.CreatedAt = d2.CreatedAt := by
  have key : ∀ (env : Env) (r : Request) (d : TemplateData),
      handed (serve env r).trace = some d → d.CreatedAt = env.timeFormat env.timeNow RFC1123 := by
    intro env r d hd
    rw [handed_serve env r d hd]
    unfold requestData
    split
    · rcases env.decode r.body with ⟨input, _ | e⟩
      · simp only [override_CreatedAt]; rfl
      · rfl
    · rfl
  refine ⟨key env1 r1 d1 h1, ?_⟩
  rw [key env1 r1 d1 h1, key env2 r2 d2 h2, hclock, hfmt]

/-- C7 at two requests of the sample world handled at the same clock value:
one posts a JSON body with a `CreatedAt` key, the other has no body; both
records carry the clock value. -/
theorem C7_created_at_is_server_clock_witness :
    (sampleEnv.decode stampBody).1.CreatedAt = "yesterday"
      ∧ handed (serve sampleEnv (sampleRequest "linux" "application/json" stampBody)).trace
        = some stampRecord
      ∧ handed (serve sampleEnv (plainRequest "linux")).trace = some sampleDefaults
      ∧ stampRecord.CreatedAt
          = sampleEnv.timeFormat sampleEnv.timeNow RFC1123
      ∧ stampRecord.CreatedAt
          = sampleDefaults.CreatedAt :=
  ⟨by decide, by decide, by decide,
    C7_created_at_is_server_clock sampleEnv sampleEnv
      (sampleRequest "linux" "application/json" stampBody) (plainRequest "linux")
      stampRecord sampleDefaults rfl rfl (by decide) (by decide)⟩


/-- C8: when the template file exists, parses and executes, a request that
supplies no override (its content type is not exactly `application/json`, or
the decoder finds no JSON value in the body and returns an error) gets status
200, plain text, the template output as body, and a record with exactly the
documented defaults. -/
theorem C8_no_override_yields_defaults (env : Env) (r : Request) (tmpl : Template)
    (hno : headerGet r.header "Content-Type" ≠ "application/json"
      ∨ (env.decode r.body).2 ≠ none)
    (hs : env.stat (templateFile (muxVar r "osType")) = StatResult.ok)
    (hp : env.parseFiles (templateFile (muxVar r "osType")) = Except.ok tmpl)
    (hx : (env.execute tmpl (defaults env)).2 = none) :
    (serve env r).w.status = 200
      ∧ sentContentType (serve env r).w = some "text/plain"
      ∧ (serve env r).w.body = (env.execute tmpl (defaults env)).1.foldl (· ++ ·) ""
      ∧ handed (serve env r).trace =
          some
            { ProjectName := "Nexus Creator Vault"
              CreatedAt := env.timeFormat env.timeNow RFC1123
              UserName := "Administrator"
              ContainerName := "nexus-creator-vault"
              Network := "Inner-Athena"
              DNS := "10.20.0.20"
              PUID := "1050"
              PGID := "1050"
              TZ := "America/Colorado"
              Port := "1050"
              Volume := "creator-vault000"
              HostIP := "10.20.0.1" } := by
  have hdata : (requestData env r).1 = defaults env := by
    by_cases hct : headerGet r.header "Content-Type" = "application/json"
    · rcases hno with hno | hno
      · exact absurd hct hno
      · rw [requestData_decode_error env r hct hno]
    · rw [requestData_not_json env r hct]
  have hs1 : env.stat (templateFile (muxVar r "osType")) ≠ StatResult.notExist := by
    rw [hs]; decide
  rw [← hdata] at hx
  have hok := serve_executed_ok env r tmpl hs1 hp hx
  rw [hdata] at hok
  exact hok

/-- C8 at `GET /scripts/linux` without header and body in the sample world. -/
theorem C8_no_override_yields_defaults_witness :
    (headerGet (plainRequest "linux").header "Content-Type" ≠ "application/json"
        ∨ (sampleEnv.decode (plainRequest "linux").body).2 ≠ none)
      ∧ sampleEnv.stat (templateFile (muxVar (plainRequest "linux") "osType")) = StatResult.ok
      ∧ sampleEnv.parseFiles (templateFile (muxVar (plainRequest "linux") "osType"))
        = Except.ok ⟨"ok"⟩
      ∧ (sampleEnv.execute ⟨"ok"⟩ (defaults sampleEnv)).2 = none
      ∧ (serve sampleEnv (plainRequest "linux")).w.status = 200
      ∧ sentContentType (serve sampleEnv (plainRequest "linux")).w = some "text/plain"
      ∧ (serve sampleEnv (plainRequest "linux")).w.body = "user=Administrator port=1050"
      ∧ handed (serve sampleEnv (plainRequest "linux")).trace = some sampleDefaults :=
  ⟨Or.inl (by decide), by decide, rfl, by decide,
    C8_no_override_yields_defaults sampleEnv (plainRequest "linux") ⟨"ok"⟩
      (Or.inl (by decide)) (by decide) rfl (by decide)⟩

/-- C9, evaluated where the code departs from it: in the sample world the
`osx` template exists and parses, its execution writes `#!/bin/bash` and then
returns an error; the response status is the already committed 200, not 500,
and the error line follows the output in the body.  The `bsd` template fails
before writing anything and gets 500. -/
theorem C9_error_after_output_keeps_200 :
    sampleEnv.stat (templateFile (muxVar (plainRequest "osx") "osType")) = StatResult.ok
      ∧ sampleEnv.parseFiles (templateFile (muxVar (plainRequest "osx") "osType"))
        = Except.ok ⟨"halfway"⟩
      ∧ sampleEnv.execute ⟨"halfway"⟩ (defaults sampleEnv)
        = (["#!/bin/bash\n"], some "can't evaluate field Nope")
      ∧ (serve sampleEnv (plainRequest "osx")).w.status = 200
      ∧ (serve sampleEnv (plainRequest "osx")).w.status ≠ 500
      ∧ (serve sampleEnv (plainRequest "osx")).w.body
        = "#!/bin/bash\nError executing template: can't evaluate field Nope\n"
      ∧ (serve sampleEnv (plainRequest "bsd")).w.status = 500
      ∧ (serve sampleEnv (plainRequest "bsd")).w.body
        = "Error executing template: can't evaluate field Nope\n" :=
  ⟨by decide, rfl, by decide, by decide, by decide, by decide, by decide, by decide⟩

/-- C10: when the formatted timestamp is non-empty, every one of the twelve
fields of the record handed to the template is a non-empty string, for every
request, content type, body and decoder result. -/
theorem C10_record_fields_nonempty (env : Env) (r : Request) (d : TemplateData)
    (hts : env.timeFormat env.timeNow RFC1123 ≠ "")
    (hd : handed (serve env r).trace = some d) :
    d.ProjectName ≠ "" ∧ d.CreatedAt ≠ "" ∧ d.UserName ≠ "" ∧ d.ContainerName ≠ ""
      ∧ d.Network ≠ "" ∧ d.DNS ≠ "" ∧ d.PUID ≠ "" ∧ d.PGID ≠ "" ∧ d.TZ ≠ ""
      ∧ d.Port ≠ "" ∧ d.Volume ≠ "" ∧ d.HostIP ≠ "" := by
  have hdef : (defaults env).ProjectName ≠ "" ∧ (defaults env).CreatedAt ≠ ""
      ∧ (defaults env).UserName ≠ "" ∧ (defaults env).ContainerName ≠ ""
      ∧ (defaults env).Network ≠ "" ∧ (defaults env).DNS ≠ "" ∧ (defaults env).PUID ≠ ""
      ∧ (defaults env).PGID ≠ "" ∧ (defaults env).TZ ≠ "" ∧ (defaults env).Port ≠ ""
      ∧ (defaults env).Volume ≠ "" ∧ (defaults env).HostIP ≠ "" :=
    ⟨by show ("Nexus Creator Vault" : String) ≠ ""; decide, hts,
      by show ("Administrator" : String) ≠ ""; decide,
      by show ("nexus-creator-vault" : String) ≠ ""; decide,
      by show ("Inner-Athena" : String) ≠ ""; decide,
      by show ("10.20.0.20" : String) ≠ ""; decide,
      by show ("1050" : String) ≠ ""; decide,
      by show ("1050" : String) ≠ ""; decide,
      by show ("America/Colorado" : String) ≠ ""; decide,
      by show ("1050" : String) ≠ ""; decide,
      by show ("creator-vault000" : String) ≠ ""; decide,
      by show ("10.20.0.1" : String) ≠ ""; decide⟩
  have pick : ∀ a b : String, b ≠ "" → (if a ≠ "" then a else b) ≠ "" := by
    intro a b hb
    split
    · assumption
    · exact hb
  rw [handed_serve env r d hd]
  unfold requestData
  split
  · rcases env.decode r.body with ⟨input, _ | e⟩
    · obtain ⟨h1, h2, h3, h4, h5, h6, h7, h8, h9, h10, h11, h12⟩ := hdef
      simp only [override_ProjectName, override_CreatedAt, override_UserName,
        override_ContainerName, override_Network, override_DNS, override_PUID, override_PGID,
        override_TZ, override_Port, override_Volume, override_HostIP]
      exact ⟨pick _ _ h1, h2, pick _ _ h3, pick _ _ h4, pick _ _ h5, pick _ _ h6, pick _ _ h7,
        pick _ _ h8, pick _ _ h9, pick _ _ h10, pick _ _ h11, pick _ _ h12⟩
    · exact hdef
  · exact hdef

/-- C10 at the sample request that overrides `UserName` and `Port`. -/
theorem C10_record_fields_nonempty_witness :
    sampleEnv.timeFormat sampleEnv.timeNow RFC1123 ≠ ""
      ∧ handed (serve sampleEnv (sampleRequest "linux" "application/json" aliceBody)).trace
        = some aliceRecord
      ∧ (aliceRecord.ProjectName ≠ "" ∧ aliceRecord.CreatedAt ≠ "" ∧ aliceRecord.UserName ≠ ""
        ∧ aliceRecord.ContainerName ≠ "" ∧ aliceRecord.Network ≠ "" ∧ aliceRecord.DNS ≠ ""
        ∧ aliceRecord.PUID ≠ "" ∧ aliceRecord.PGID ≠ "" ∧ aliceRecord.TZ ≠ ""
        ∧ aliceRecord.Port ≠ "" ∧ aliceRecord.Volume ≠ "" ∧ aliceRecord.HostIP ≠ "") :=
  ⟨by decide, by decide,
    C10_record_fields_nonempty sampleEnv (sampleRequest "linux" "application/json" aliceBody)
      aliceRecord (by decide) (by decide)⟩

end CloudArchitect
